import Mathlib

/-!
# Verification of the chiefhype portfolio scripts

Shallow embedding of the repository's client-side scripts:

* `Loader` — `src/scripts/main.js`, the lazy video loader (intersection
  driven loading, loaded-set, pause/resume observer, error handling,
  eager fallback).
* `FgSky` — first script in `src/scripts/night-sky.js` (drifting
  foreground stars overlay).
* `SimpleSF` — third script in `src/scripts/night-sky.js` (simple
  starfield: 300 white stars, twinkle clamp, resize regeneration).
* `PhotoSky` — `src/unnamed/part_001` (photorealistic Milky Way canvas).
* `GalaxySky` — `src/unnamed/part_002` (Three.js rotating sphere).
* `FallbackSky` — `src/unnamed/part_000` (D3-Celestial with polling and
  canvas fallback).

Browser primitives are modelled explicitly: `requestAnimationFrame` /
`cancelAnimationFrame` as a handle-allocating scheduler (`Raf`), DOM
elements as records of exactly the attributes the scripts read or write,
`Math.random()` draws as rational parameters constrained to `[0, 1)`,
and JavaScript string truthiness (`undefined` and `""` are falsy) as
`jsTruthy`.
-/

namespace Loader

/-- JavaScript truthiness for an optional string: `undefined` (here
`none`) and the empty string are falsy; every other string is truthy. -/
def jsTruthy : Option String → Bool
  | none => false
  | some s => s ≠ ""

/-- JavaScript `a || b` on optional strings, as used in
`video.dataset.index || video.closest('[data-index]')?.dataset.index`. -/
def jsOr (a b : Option String) : Option String :=
  if jsTruthy a then a else b

/-- The sibling overlay element (`video.nextElementSibling`) with the
fields `main.js` reads and writes: its class check, the optional
`.loader` child (its `innerHTML`, border and font-size styles), the
overlay opacity / pointer-events styles, and the appended play buttons. -/
structure Overlay where
  isVideoOverlay : Bool
  loaderHTML : Option String
  loaderBorder : String
  loaderFontSize : String
  opacity : String
  pointerEvents : String
  playButtons : Nat
  deriving Repr, DecidableEq

/-- A `.lazy-video` element as `main.js` sees it: its `data-index`, the
`data-index` of the closest ancestor carrying one, `data-src`, the
appended `<source>` children, the number of `video.load()` calls, the
class list, the numbers of registered once-listeners for `loadeddata`
and `error`, the number of `video.play()` dispatches, the `paused` and
`readyState` media fields, whether it is still observed by the lazy
observer, and the sibling overlay. -/
structure VideoElem where
  datasetIndex : Option String
  closestIndex : Option String
  dataSrc : Option String
  sources : List String
  loadCalls : Nat
  classes : List String
  loadeddataListeners : Nat
  errorListeners : Nat
  playRequests : Nat
  paused : Bool
  readyState : Nat
  observed : Bool
  overlay : Option Overlay
  deriving Repr, DecidableEq

/-- The script-global `state` object of `main.js`: the `loadedVideos`
set (of possibly-undefined video ids) and the keys of the `observers`
map. -/
structure LoaderState where
  loadedVideos : List (Option String)
  observers : List String
  deriving Repr, DecidableEq

/-- The id resolution at the top of `loadVideo`:
`video.dataset.index || video.closest('[data-index]')?.dataset.index`. -/
def videoId (v : VideoElem) : Option String :=
  jsOr v.datasetIndex v.closestIndex

/-- `loadVideo` (`main.js` lines 81–115): resolve the id; return if the
id is already in the loaded set; return (with a console warning) if
`data-src` is falsy; otherwise create a `<source>`, register once-only
`loadeddata` and `error` listeners, append the source and call
`video.load()`. -/
def loadVideo (st : LoaderState) (v : VideoElem) : LoaderState × VideoElem :=
  let vid := videoId v
  if st.loadedVideos.contains vid then
    (st, v)
  else
    if ¬ jsTruthy v.dataSrc then
      (st, v)
    else
      (st, { v with
        sources := v.sources ++ [v.dataSrc.getD ""],
        loadeddataListeners := v.loadeddataListeners + 1,
        errorListeners := v.errorListeners + 1,
        loadCalls := v.loadCalls + 1 })

/-- Outcome of the promise returned by `video.play()`: resolved,
rejected (autoplay prevented), or `undefined` (old browsers). -/
inductive PlayOutcome where
  | resolved
  | rejected
  | noPromise
  deriving Repr, DecidableEq

/-- `addPlayButton` (`main.js` lines 161–197): if the sibling overlay
exists and has class `video-overlay`, append a play button and set the
overlay's opacity and pointer-events styles. -/
def addPlayButton (v : VideoElem) : VideoElem :=
  match v.overlay with
  | none => v
  | some o =>
    if o.isVideoOverlay then
      { v with overlay := some { o with
          playButtons := o.playButtons + 1,
          opacity := "0.8",
          pointerEvents := "all" } }
    else v

/-- `handleVideoLoaded` (`main.js` lines 120–138): add the `loaded`
class, record the id in the loaded set, and call `video.play()`.  The
play dispatch clears `paused`; if the promise rejects, `paused` is
restored and a play button is injected. -/
def handleVideoLoaded (st : LoaderState) (v : VideoElem) (vid : Option String)
    (outcome : PlayOutcome) : LoaderState × VideoElem :=
  let v := { v with classes :=
    if v.classes.contains "loaded" then v.classes else v.classes ++ ["loaded"] }
  let st := { st with loadedVideos :=
    if st.loadedVideos.contains vid then st.loadedVideos
    else st.loadedVideos ++ [vid] }
  let v := { v with playRequests := v.playRequests + 1, paused := false }
  match outcome with
  | .resolved => (st, v)
  | .noPromise => (st, v)
  | .rejected => (st, addPlayButton { v with paused := true })

/-- `handleVideoError` (`main.js` lines 143–156): if the sibling overlay
exists, has class `video-overlay` and contains a `.loader` element,
replace the loader's `innerHTML` with the warning glyph and restyle it;
nothing else changes. -/
def handleVideoError (st : LoaderState) (v : VideoElem) : LoaderState × VideoElem :=
  match v.overlay with
  | none => (st, v)
  | some o =>
    if o.isVideoOverlay then
      match o.loaderHTML with
      | none => (st, v)
      | some _ =>
        (st, { v with overlay := some { o with
            loaderHTML := some "⚠️",
            loaderBorder := "none",
            loaderFontSize := "2rem" } })
    else (st, v)

/-- `handleIntersection` (`main.js` lines 68–76) specialised to a single
observed video: for each entry of the delivered batch, if it is
intersecting, call `loadVideo` and then `observer.unobserve(video)`.
Entries later in the same batch are still processed after the
unobserve. -/
def handleIntersection (s : LoaderState × VideoElem) (entries : List Bool) :
    LoaderState × VideoElem :=
  entries.foldl
    (fun s isIntersecting =>
      if isIntersecting then
        let s' := loadVideo s.1 s.2
        (s'.1, { s'.2 with observed := false })
      else s)
    s

/-- The pause/resume observer callback of `setupVideoInteractions`
(`main.js` lines 211–219), for one delivered entry.  `isIntersecting`
is the observer's visibility signal for the containing `.app-card`
(threshold 0.5): pause a playing video whose card left the viewport;
dispatch `play()` (clearing `paused`) when the card is back and the
video is paused with `readyState >= 2`; otherwise do nothing. -/
def pauseResumeStep (isIntersecting : Bool) (v : VideoElem) : VideoElem :=
  if ¬ isIntersecting ∧ ¬ v.paused then
    { v with paused := true }
  else
    if isIntersecting ∧ v.paused ∧ v.readyState ≥ 2 then
      { v with playRequests := v.playRequests + 1, paused := false }
    else v

/-- `loadAllVideos` (`main.js` lines 240–243): `videos.forEach(loadVideo)`,
threading the shared loader state left to right. -/
def loadAllVideos (st : LoaderState) : List VideoElem → LoaderState × List VideoElem
  | [] => (st, [])
  | v :: rest =>
    let s := loadVideo st v
    let r := loadAllVideos s.1 rest
    (r.1, s.2 :: r.2)

/-- The page as `init` sees it: whether `IntersectionObserver` exists in
`window`, the `.lazy-video` elements, and the `data-index` values of the
`.app-video` elements that sit inside an `.app-card`. -/
structure Page where
  hasIntersectionObserver : Bool
  lazyVideos : List VideoElem
  appVideoIndices : List (Option String)
  deriving Repr

/-- The observable result of `init`: the loader state, the lazy video
elements, and which of the three setup routines ran. -/
structure InitResult where
  state : LoaderState
  lazyVideos : List VideoElem
  lazyObserverSetUp : Bool
  interactionsSetUp : Bool
  errorHandlingSetUp : Bool
  deriving Repr

/-- `setupLazyLoading` (`main.js` lines 46–63) records the `video`
observer key and observes every lazy video (no loading happens yet). -/
def setupLazyLoading (st : LoaderState) (videos : List VideoElem) :
    LoaderState × List VideoElem :=
  ({ st with observers := st.observers ++ ["video"] },
    videos.map fun v => { v with observed := true })

/-- `setupVideoInteractions` (`main.js` lines 202–224) records one
`pause-<index>` observer key per `.app-video` inside an `.app-card`. -/
def setupVideoInteractions (st : LoaderState) (appIndices : List (Option String)) :
    LoaderState :=
  { st with observers :=
      st.observers ++ appIndices.map fun i => "pause-" ++ i.getD "undefined" }

/-- `init` (`main.js` lines 28–41): without `IntersectionObserver`
support, load every lazy video eagerly and return before any observer
setup; otherwise run the three setup routines. -/
def init (st : LoaderState) (p : Page) : InitResult :=
  if ¬ p.hasIntersectionObserver then
    let r := loadAllVideos st p.lazyVideos
    { state := r.1, lazyVideos := r.2,
      lazyObserverSetUp := false, interactionsSetUp := false,
      errorHandlingSetUp := false }
  else
    let s := setupLazyLoading st p.lazyVideos
    let st := setupVideoInteractions s.1 p.appVideoIndices
    { state := st, lazyVideos := s.2,
      lazyObserverSetUp := true, interactionsSetUp := true,
      errorHandlingSetUp := true }

/-- Events a single lazy video element can receive: an intersection
delivery, the media firing `loadeddata` (with the play-promise outcome
of the handler's `video.play()` call), or the media firing `error`. -/
inductive VEvent where
  | intersect
  | loadeddata (outcome : PlayOutcome)
  | mediaError
  deriving Repr, DecidableEq

/-- Run the registered once-only `loadeddata` handlers: each of the `n`
listeners registered by `loadVideo` runs `handleVideoLoaded` once (the
id was captured at registration time; the dataset never changes, so it
equals `videoId v`). -/
def fireLoadeddata (outcome : PlayOutcome) :
    Nat → LoaderState × VideoElem → LoaderState × VideoElem
  | 0, s => s
  | n + 1, s =>
    fireLoadeddata outcome n (handleVideoLoaded s.1 s.2 (videoId s.2) outcome)

/-- Run the registered once-only `error` handlers. -/
def fireError : Nat → LoaderState × VideoElem → LoaderState × VideoElem
  | 0, s => s
  | n + 1, s => fireError n (handleVideoError s.1 s.2)

/-- One event step for a single lazy video: an intersection delivery
runs `loadVideo` (through the intersection callback the element is then
unobserved); a media event runs all its registered once-only handlers
and consumes them. -/
def step (s : LoaderState × VideoElem) : VEvent → LoaderState × VideoElem
  | .intersect =>
    let s' := loadVideo s.1 s.2
    (s'.1, { s'.2 with observed := false })
  | .loadeddata outcome =>
    let s' := fireLoadeddata outcome s.2.loadeddataListeners s
    (s'.1, { s'.2 with loadeddataListeners := 0 })
  | .mediaError =>
    let s' := fireError s.2.errorListeners s
    (s'.1, { s'.2 with errorListeners := 0 })

/-- Run a trace of events. -/
def run (s : LoaderState × VideoElem) (tr : List VEvent) : LoaderState × VideoElem :=
  tr.foldl step s

/-- The empty loader state at script start. -/
def st0 : LoaderState := { loadedVideos := [], observers := [] }

/-- A fresh lazy video element with index `"0"` and a source URL, as
parsed from the markup before any script activity. -/
def v0 : VideoElem :=
  { datasetIndex := some "0", closestIndex := some "0",
    dataSrc := some "videos/demo.mp4",
    sources := [], loadCalls := 0, classes := ["lazy-video"],
    loadeddataListeners := 0, errorListeners := 0,
    playRequests := 0, paused := true, readyState := 0,
    observed := true, overlay := none }

/-- A concrete sibling overlay carrying the `video-overlay` class and a
spinner loader, as the markup provides it. -/
def ov0 : Overlay :=
  { isVideoOverlay := true, loaderHTML := some "spinner",
    loaderBorder := "", loaderFontSize := "",
    opacity := "1", pointerEvents := "none", playButtons := 0 }

/-- `ov0` after `handleVideoError` rewrote the loader. -/
def ov0err : Overlay :=
  { isVideoOverlay := true, loaderHTML := some "⚠️",
    loaderBorder := "none", loaderFontSize := "2rem",
    opacity := "1", pointerEvents := "none", playButtons := 0 }

/-- `v0` with the overlay `ov0` as its next sibling. -/
def v0ov : VideoElem := { v0 with overlay := some ov0 }

/-- A video that is currently playing. -/
def vPlaying : VideoElem := { v0 with paused := false }

/-- A paused video with enough buffered data (`readyState = 4`). -/
def vReady : VideoElem := { v0 with paused := true, readyState := 4 }

/-- A paused video without enough buffered data (`readyState = 1`). -/
def vUnready : VideoElem := { v0 with paused := true, readyState := 1 }

/-- A loader state in which video id `"0"` has already been recorded by
`handleVideoLoaded`. -/
def stA : LoaderState := { loadedVideos := [some "0"], observers := [] }

end Loader

/-- The browser's animation-frame scheduler, as the scripts use it:
`requestAnimationFrame` allocates a fresh positive handle and adds it to
the pending set; `cancelAnimationFrame` removes a handle.  Handles start
at 1 (the platform guarantees a non-zero return value). -/
structure Raf where
  nextHandle : Nat
  pending : List Nat
  deriving Repr, DecidableEq

/-- The scheduler before any request. -/
def Raf.start : Raf := { nextHandle := 1, pending := [] }

/-- `requestAnimationFrame(cb)`: schedule a frame, returning the handle. -/
def Raf.request (r : Raf) : Raf × Nat :=
  ({ nextHandle := r.nextHandle + 1, pending := r.pending ++ [r.nextHandle] },
    r.nextHandle)

/-- `cancelAnimationFrame(h)`: the request with handle `h` is no longer
pending. -/
def Raf.cancel (r : Raf) (h : Nat) : Raf :=
  { r with pending := r.pending.erase h }

namespace FgSky

/-- A drifting foreground star (`night-sky.js` lines 19–60): position,
original x, size, opacity, twinkle speed and phase, and the fixed drift
speed of 0.3 px/s. -/
structure Star where
  x : ℚ
  baseX : ℚ
  y : ℚ
  size : ℚ
  opacity : ℚ
  twinkleSpeed : ℚ
  twinklePhase : ℚ
  driftSpeed : ℚ
  deriving Repr, DecidableEq

/-- `Star.update(deltaTime)` (`night-sky.js` lines 31–41): advance the
twinkle phase, drift right by `driftSpeed * deltaTime`, and wrap to
`-50` past the right edge. -/
def Star.update (width dt : ℚ) (s : Star) : Star :=
  let s := { s with twinklePhase := s.twinklePhase + s.twinkleSpeed,
                    x := s.x + s.driftSpeed * dt }
  if s.x > width + 50 then { s with x := -50 } else s

/-- The script state of the foreground-stars overlay: canvas size, the
star list, the `lastTime` timestamp, and the frame scheduler. -/
structure State where
  width : ℚ
  height : ℚ
  lastTime : ℚ
  stars : List Star
  raf : Raf
  deriving Repr, DecidableEq

/-- `animate(currentTime)` (`night-sky.js` lines 93–105): compute the
frame delta, update every star, redraw, and request the next frame.
The handle returned by `requestAnimationFrame` is discarded — the
script never stores it. -/
def animate (currentTime : ℚ) (s : State) : State :=
  let dt := (currentTime - s.lastTime) / 1000
  let s := { s with lastTime := currentTime,
                    stars := s.stars.map (Star.update s.width dt) }
  { s with raf := s.raf.request.1 }

/-- The `beforeunload` handlers this script registers: none — the
foreground-stars IIFE (`night-sky.js` lines 6–112) contains no
`beforeunload` listener and no `cancelAnimationFrame` call. -/
def unloadHandlers : List (State → State) := []

/-- Page unload for this script: run its registered `beforeunload`
handlers in order. -/
def unload (s : State) : State :=
  unloadHandlers.foldl (fun st f => f st) s

/-- A concrete script state right before teardown: one frame has been
requested (as `init` does by calling `animate`), no stars for brevity. -/
def sample : State :=
  animate 0 { width := 800, height := 600, lastTime := 0,
              stars := [], raf := Raf.start }

end FgSky

namespace SimpleSF

/-- `CONFIG` of the simple starfield (`night-sky.js` lines 374–379). -/
def starCount : Nat := 300
def minSize : ℚ := 1/2
def maxSize : ℚ := 5/2
def configTwinkleSpeed : ℚ := 5/1000

/-- A simple white star (`night-sky.js` lines 384–413): position, size,
opacity, per-star twinkle speed and direction. -/
structure Star where
  x : ℚ
  y : ℚ
  size : ℚ
  opacity : ℚ
  twinkleSpeed : ℚ
  twinkleDirection : Int
  deriving Repr, DecidableEq

/-- The `Star` constructor, with the six `Math.random()` draws made
explicit (each is a rational in `[0, 1)`):
`x = r1 * width`, `y = r2 * height`,
`size = r3 * (maxSize - minSize) + minSize`,
`opacity = r4 * 0.5 + 0.5`,
`twinkleSpeed = r5 * CONFIG.twinkleSpeed + CONFIG.twinkleSpeed`,
`twinkleDirection = r6 > 0.5 ? 1 : -1`. -/
def mkStar (width height r1 r2 r3 r4 r5 r6 : ℚ) : Star :=
  { x := r1 * width
    y := r2 * height
    size := r3 * (maxSize - minSize) + minSize
    opacity := r4 * (1/2) + 1/2
    twinkleSpeed := r5 * configTwinkleSpeed + configTwinkleSpeed
    twinkleDirection := if r6 > 1/2 then 1 else -1 }

/-- `Star.update` (`night-sky.js` lines 394–405): move the opacity by
`twinkleSpeed * twinkleDirection`, clamp at 1 (turning the direction
down) and at 0.3 (turning it up). -/
def Star.update (s : Star) : Star :=
  let o := s.opacity + s.twinkleSpeed * s.twinkleDirection
  if o ≥ 1 then
    { s with opacity := 1, twinkleDirection := -1 }
  else if o ≤ 3/10 then
    { s with opacity := 3/10, twinkleDirection := 1 }
  else
    { s with opacity := o }

/-- Script state of the simple starfield: canvas size, stars, the frame
scheduler, and the stored `animationId`. -/
structure State where
  width : ℚ
  height : ℚ
  stars : List Star
  raf : Raf
  animationId : Option Nat
  deriving Repr, DecidableEq

/-- `createStars` (`night-sky.js` lines 443–448): discard the current
list and push `CONFIG.starCount` fresh stars.  The random source `rnd`
supplies the six draws of star `i` at indices `6*i .. 6*i+5`. -/
def createStars (width height : ℚ) (rnd : Nat → ℚ) : List Star :=
  (List.range starCount).map fun i =>
    mkStar width height (rnd (6*i)) (rnd (6*i+1)) (rnd (6*i+2))
      (rnd (6*i+3)) (rnd (6*i+4)) (rnd (6*i+5))

/-- `resize` (`night-sky.js` lines 430–438): set the canvas to the new
window size and, if stars already exist, recreate the whole set. -/
def resize (newW newH : ℚ) (rnd : Nat → ℚ) (s : State) : State :=
  let s := { s with width := newW, height := newH }
  if s.stars.length > 0 then
    { s with stars := createStars newW newH rnd }
  else s

/-- `animate` (`night-sky.js` lines 453–466): clear, update and draw
every star, and store the next frame's handle in `animationId`. -/
def animate (s : State) : State :=
  let s := { s with stars := s.stars.map Star.update }
  let r := s.raf.request
  { s with raf := r.1, animationId := some r.2 }

/-- The `beforeunload` handler (`night-sky.js` lines 486–490):
`if (animationId) cancelAnimationFrame(animationId)` — a stored handle
is cancelled (handle 0 would be falsy in JS, hence the guard). -/
def beforeunload (s : State) : State :=
  match s.animationId with
  | none => s
  | some h => if h = 0 then s else { s with raf := s.raf.cancel h }

/-- A concrete simple-starfield state at script start. -/
def sample : State :=
  { width := 800, height := 600, stars := [], raf := Raf.start,
    animationId := none }

/-- `sample` after an initial star has been created, so that a resize
regenerates the set. -/
def sampleWithStars : State :=
  { sample with stars := [mkStar 800 600 0 0 0 0 0 0] }

end SimpleSF

namespace PhotoSky

/-- The star kinds of the photorealistic Milky Way (`src/unnamed/part_001`
lines 47–75). -/
inductive Kind where
  | white
  | mwCore
  | mwEdge
  deriving Repr, DecidableEq

/-- A photorealistic star (`part_001` lines 47–142): polar angle, kind,
distance, size, opacity, RGB colour, parallax layer, twinkle speed and
phase.  `getPosition` and `draw` are pure rendering (they mutate no
script state) and are not part of the state model. -/
structure Star where
  angle : ℚ
  kind : Kind
  distance : ℚ
  size : ℚ
  opacity : ℚ
  color : Nat × Nat × Nat
  layer : ℚ
  twinkleSpeed : ℚ
  twinklePhase : ℚ
  deriving Repr, DecidableEq

/-- `Star.update` (`part_001` lines 89–91): advance the twinkle phase. -/
def Star.update (s : Star) : Star :=
  { s with twinklePhase := s.twinklePhase + s.twinkleSpeed }

/-- `CONFIG.rotationSpeed` (`part_001` line 20). -/
def rotationSpeed : ℚ := 3/100000

/-- The IEEE-754 double value of JavaScript's `Math.PI`, to the 17
significant digits it prints with. -/
def mathPI : ℚ := 3.141592653589793

/-- Script state of the photorealistic Milky Way: the global rotation,
the stars, the frame scheduler and the stored `animationId`. -/
structure State where
  rotation : ℚ
  stars : List Star
  raf : Raf
  animationId : Option Nat
  deriving Repr, DecidableEq

/-- `animate` (`part_001` lines 241–262): clear, advance the rotation
(wrapping at `2π`), draw the nebula clouds (render-only), update and
draw every star, and store the next frame's handle in `animationId`. -/
def animate (s : State) : State :=
  let rot := s.rotation + rotationSpeed
  let rot := if rot ≥ mathPI * 2 then rot - mathPI * 2 else rot
  let s := { s with rotation := rot, stars := s.stars.map Star.update }
  let r := s.raf.request
  { s with raf := r.1, animationId := some r.2 }

/-- The `beforeunload` handler (`part_001` lines 267–271):
`if (animationId) cancelAnimationFrame(animationId)`. -/
def beforeunload (s : State) : State :=
  match s.animationId with
  | none => s
  | some h => if h = 0 then s else { s with raf := s.raf.cancel h }

/-- A concrete photorealistic-sky state at script start. -/
def sample : State :=
  { rotation := 0, stars := [], raf := Raf.start, animationId := none }

end PhotoSky

namespace GalaxySky

/-- `CONFIG.rotationSpeed` of the Three.js sphere (`src/unnamed/part_002`
line 14). -/
def rotationSpeed : ℚ := 2/10000

/-- Script state of the 360° galaxy: the sphere's y rotation, whether
the WebGL renderer exists and whether it has been disposed, the frame
scheduler, and the stored `animationId`.  The camera wobble and the
render call are pure output. -/
structure State where
  sphereRotationY : ℚ
  rendererExists : Bool
  rendererDisposed : Bool
  raf : Raf
  animationId : Option Nat
  deriving Repr, DecidableEq

/-- `animate` (`part_002` lines 199–211): store the next frame's handle
first, then rotate the sphere and render. -/
def animate (s : State) : State :=
  let r := s.raf.request
  let s := { s with raf := r.1, animationId := some r.2 }
  { s with sphereRotationY := s.sphereRotationY + rotationSpeed }

/-- The `beforeunload` handler (`part_002` lines 226–233):
`if (animationId) cancelAnimationFrame(animationId)` and
`if (renderer) renderer.dispose()`. -/
def beforeunload (s : State) : State :=
  let s :=
    match s.animationId with
    | none => s
    | some h => if h = 0 then s else { s with raf := s.raf.cancel h }
  if s.rendererExists then { s with rendererDisposed := true } else s

/-- A concrete galaxy-sphere state at script start. -/
def sample : State :=
  { sphereRotationY := 0, rendererExists := true, rendererDisposed := false,
    raf := Raf.start, animationId := none }

end GalaxySky

namespace FallbackSky

/-- Which renderer ended up running in `src/unnamed/part_000`. -/
inductive Outcome where
  | celestial
  | canvasFallback
  | nothing
  deriving Repr, DecidableEq

/-- `initD3Celestial` (`part_000` lines 47–122): fails (returns false)
when the `#celestial-map` container is missing or `Celestial.display`
throws; succeeds otherwise and starts the interval-driven animation. -/
def initD3Celestial (containerExists displayOk : Bool) : Bool :=
  containerExists && displayOk

/-- `initCanvasFallback` (`part_000` lines 157–181): fails when the
container is missing; otherwise it creates the canvas, generates the
star field and starts the self-contained animation loop. -/
def initCanvasFallback (containerExists : Bool) : Bool :=
  containerExists

/-- `init` (`part_000` lines 255–277): re-check the libraries; when
both are available try D3-Celestial and fall back to the canvas
renderer on failure; when they are not, go straight to the canvas
fallback. -/
def mainInit (libsNow containerExists displayOk : Bool) : Outcome :=
  if libsNow then
    if initD3Celestial containerExists displayOk then .celestial
    else if initCanvasFallback containerExists then .canvasFallback
    else .nothing
  else
    if initCanvasFallback containerExists then .canvasFallback
    else .nothing

/-- `checkAndInit` (`part_000` lines 285–308).  `dom t` / `libs t` tell
whether the document was ready (readyState complete or interactive) and
whether both `d3` and `Celestial` were defined at the `t`-th check; the
checks are 100 ms apart.  `checkAttempts` is incremented on every call
(DOM-ready or not); when the DOM is ready the libraries are probed, and
once `checkAttempts` reaches `maxAttempts = 50` the script stops
waiting and runs `init` (which, the libraries still being absent, takes
the fallback path).  `fuel` bounds the recursion; `none` means the
polling was still running after `fuel` checks. -/
def checkAndInit (dom libs : Nat → Bool) (containerExists displayOk : Bool) :
    Nat → Nat → Option Outcome
  | _, 0 => none
  | attempts, fuel + 1 =>
    let a := attempts + 1
    if dom a then
      if libs a then
        some (mainInit true containerExists displayOk)
      else if a ≥ 50 then
        some (mainInit false containerExists displayOk)
      else
        checkAndInit dom libs containerExists displayOk a fuel
    else
      checkAndInit dom libs containerExists displayOk a fuel

end FallbackSky

/-! ## Helper lemmas -/

namespace Loader

/-- `loadVideo` never modifies the script-global state: in particular it
does not record the id in the loaded set (only `handleVideoLoaded`
does). -/
theorem loadVideo_state (st : LoaderState) (v : VideoElem) :
    (loadVideo st v).1 = st := by
  unfold loadVideo
  dsimp only
  split <;> [rfl; split <;> rfl]

/-- `loadVideo` leaves the class list untouched. -/
theorem loadVideo_classes (st : LoaderState) (v : VideoElem) :
    (loadVideo st v).2.classes = v.classes := by
  unfold loadVideo
  dsimp only
  split <;> [rfl; split <;> rfl]

/-- `loadVideo` never dispatches `video.play()`. -/
theorem loadVideo_playRequests (st : LoaderState) (v : VideoElem) :
    (loadVideo st v).2.playRequests = v.playRequests := by
  unfold loadVideo
  dsimp only
  split <;> [rfl; split <;> rfl]

/-- `loadAllVideos` threads the state through `loadVideo` only, so the
state comes back unchanged. -/
theorem loadAllVideos_state (vs : List VideoElem) (st : LoaderState) :
    (loadAllVideos st vs).1 = st := by
  induction vs generalizing st with
  | nil => rfl
  | cons v rest ih =>
    show (loadAllVideos (loadVideo st v).1 rest).1 = st
    rw [ih, loadVideo_state]

/-- `handleVideoError` never modifies the script-global state. -/
theorem handleVideoError_state (st : LoaderState) (v : VideoElem) :
    (handleVideoError st v).1 = st := by
  unfold handleVideoError
  cases v.overlay with
  | none => rfl
  | some o => dsimp only; split <;> [skip; rfl]; cases o.loaderHTML <;> rfl

/-- `handleVideoError` only touches the overlay: the class list is
unchanged. -/
theorem handleVideoError_classes (st : LoaderState) (v : VideoElem) :
    (handleVideoError st v).2.classes = v.classes := by
  unfold handleVideoError
  cases v.overlay with
  | none => rfl
  | some o => dsimp only; split <;> [skip; rfl]; cases o.loaderHTML <;> rfl

/-- `handleVideoError` never dispatches `video.play()`. -/
theorem handleVideoError_playRequests (st : LoaderState) (v : VideoElem) :
    (handleVideoError st v).2.playRequests = v.playRequests := by
  unfold handleVideoError
  cases v.overlay with
  | none => rfl
  | some o => dsimp only; split <;> [skip; rfl]; cases o.loaderHTML <;> rfl

/-- The state component of `handleVideoLoaded` does not depend on the
play outcome: the id is recorded (set-insert) whatever `play()` does. -/
theorem handleVideoLoaded_state (st : LoaderState) (v : VideoElem)
    (vid : Option String) (o : PlayOutcome) :
    (handleVideoLoaded st v vid o).1 =
      { st with loadedVideos :=
          if st.loadedVideos.contains vid then st.loadedVideos
          else st.loadedVideos ++ [vid] } := by
  cases o <;> rfl

/-- Running the once-only `error` handlers preserves the state, the
class list and the play-request count. -/
theorem fireError_preserves (n : Nat) (s : LoaderState × VideoElem) :
    (fireError n s).1 = s.1 ∧ (fireError n s).2.classes = s.2.classes ∧
      (fireError n s).2.playRequests = s.2.playRequests := by
  induction n generalizing s with
  | zero => exact ⟨rfl, rfl, rfl⟩
  | succ m ih =>
    have h := ih (handleVideoError s.1 s.2)
    refine ⟨?_, ?_, ?_⟩
    · exact h.1.trans (handleVideoError_state s.1 s.2)
    · exact h.2.1.trans (handleVideoError_classes s.1 s.2)
    · exact h.2.2.trans (handleVideoError_playRequests s.1 s.2)

/-- One event step that is not a `loadeddata` delivery leaves the class
list, the loaded set and the play-request count untouched: `loadVideo`
only appends a source and registers listeners, and `handleVideoError`
only rewrites the overlay. -/
theorem step_preserves_without_loadeddata (s : LoaderState × VideoElem)
    (e : VEvent) (he : ∀ o, e ≠ VEvent.loadeddata o) :
    (step s e).2.classes = s.2.classes ∧
      (step s e).1.loadedVideos = s.1.loadedVideos ∧
      (step s e).2.playRequests = s.2.playRequests := by
  cases e with
  | intersect =>
    refine ⟨?_, ?_, ?_⟩
    · exact loadVideo_classes s.1 s.2
    · show (loadVideo s.1 s.2).1.loadedVideos = s.1.loadedVideos
      rw [loadVideo_state]
    · exact loadVideo_playRequests s.1 s.2
  | loadeddata o => exact absurd rfl (he o)
  | mediaError =>
    have h := fireError_preserves s.2.errorListeners s
    refine ⟨h.2.1, ?_, h.2.2⟩
    show (fireError s.2.errorListeners s).1.loadedVideos = s.1.loadedVideos
    rw [h.1]

end Loader

/-- Erasing a freshly appended element recovers the original list. -/
theorem erase_append_singleton {a : Nat} {l : List Nat} (h : a ∉ l) :
    (l ++ [a]).erase a = l := by
  induction l with
  | nil => simp
  | cons b t ih =>
    have hab : ¬ (b == a) = true := by
      simp only [List.mem_cons, not_or] at h
      simp [Ne.symm h.1]
    have ht : a ∉ t := by
      simp only [List.mem_cons, not_or] at h
      exact h.2
    simp only [List.cons_append, List.erase_cons, hab, if_neg, ih ht]
    simp [hab]

namespace SimpleSF

/-- `Star.update` never moves a star: only opacity and twinkle
direction change. -/
theorem update_xy (s : Star) : (Star.update s).x = s.x ∧ (Star.update s).y = s.y := by
  unfold Star.update
  dsimp only
  split_ifs <;> exact ⟨rfl, rfl⟩

/-- After any single `Star.update`, the opacity lands in `[0.3, 1]`,
whatever the star's fields were: the two clamp branches pin it to the
bounds and the remaining branch is strictly inside. -/
theorem update_opacity_bounds (s : Star) :
    3/10 ≤ (Star.update s).opacity ∧ (Star.update s).opacity ≤ 1 := by
  unfold Star.update
  dsimp only
  split_ifs with h1 h2
  · constructor <;> norm_num
  · constructor <;> norm_num
  · constructor
    · show 3/10 ≤ s.opacity + s.twinkleSpeed * s.twinkleDirection
      linarith [not_le.mp h2]
    · show s.opacity + s.twinkleSpeed * s.twinkleDirection ≤ 1
      linarith [not_le.mp h1]

end SimpleSF

namespace FallbackSky

/-- While the DOM is ready and the libraries never appear, the polling
loop counts attempts up and, as soon as the counter reaches 50, runs
`init` on the fallback path. -/
theorem checkAndInit_reaches_fallback (dom libs : Nat → Bool)
    (containerExists displayOk : Bool)
    (hdom : ∀ t, dom t = true) (hlibs : ∀ t, libs t = false) :
    ∀ fuel attempts, 1 ≤ fuel → 50 ≤ attempts + fuel →
      checkAndInit dom libs containerExists displayOk attempts fuel =
        some (mainInit false containerExists displayOk) := by
  intro fuel
  induction fuel with
  | zero => intro attempts h1 _; omega
  | succ f ih =>
    intro attempts _ h2
    show (if dom (attempts + 1) then _ else _) = _
    rw [hdom (attempts + 1), if_pos rfl, hlibs (attempts + 1)]
    by_cases hge : attempts + 1 ≥ 50
    · simp [hge]
    · simp only [Bool.false_eq_true, if_false, if_neg hge]
      exact ih (attempts + 1) (by omega) (by omega)

end FallbackSky



/-! ## Claim theorems -/

/-- C9: if a video element's `data-src` attribute is missing, `loadVideo`
returns without changing any state: no source appended, no load started,
no listener registered, loaded-set unchanged (only a console warning). -/
theorem C9_loadVideo_missing_src_noop (st : Loader.LoaderState)
    (v : Loader.VideoElem) (h : v.dataSrc = none) :
    Loader.loadVideo st v = (st, v) := by
  unfold Loader.loadVideo
  dsimp only
  rw [h]
  split
  · rfl
  · simp [Loader.jsTruthy]

/-- Witness for C9 at a concrete element: `v0` with its `data-src`
removed. -/
theorem C9_witness :
    ({ Loader.v0 with dataSrc := none } : Loader.VideoElem).dataSrc = none ∧
      Loader.loadVideo Loader.st0 { Loader.v0 with dataSrc := none } =
        (Loader.st0, { Loader.v0 with dataSrc := none }) :=
  ⟨rfl, C9_loadVideo_missing_src_noop Loader.st0 _ rfl⟩

/-- C5: when a video's media load fails, `handleVideoError` replaces the
loading indicator in the sibling overlay with the error glyph, and that
is all it does: the loader state is untouched (no retry is recorded),
no further `video.load()` happens, no source is appended, and no
playback is attempted. -/
theorem C5_error_glyph_no_retry_no_play (st : Loader.LoaderState)
    (v : Loader.VideoElem) (o : Loader.Overlay) (html : String)
    (hov : v.overlay = some o) (hcls : o.isVideoOverlay = true)
    (hld : o.loaderHTML = some html) :
    Loader.handleVideoError st v =
      (st, { v with overlay := some { o with
        loaderHTML := some "⚠️", loaderBorder := "none",
        loaderFontSize := "2rem" } }) ∧
    (Loader.handleVideoError st v).2.loadCalls = v.loadCalls ∧
    (Loader.handleVideoError st v).2.sources = v.sources ∧
    (Loader.handleVideoError st v).2.playRequests = v.playRequests := by
  have heq : Loader.handleVideoError st v =
      (st, { v with overlay := some { o with
        loaderHTML := some "⚠️", loaderBorder := "none",
        loaderFontSize := "2rem" } }) := by
    unfold Loader.handleVideoError
    rw [hov]
    dsimp only
    rw [hcls]
    simp only [if_pos]
    rw [hld]
  exact ⟨heq, by rw [heq], by rw [heq], by rw [heq]⟩

/-- Witness for C5: a concrete element whose overlay has the
`video-overlay` class and a spinner loader. -/
theorem C5_witness :
    Loader.v0ov.overlay = some Loader.ov0 ∧
      Loader.ov0.isVideoOverlay = true ∧
      Loader.ov0.loaderHTML = some "spinner" ∧
      (Loader.handleVideoError Loader.st0 Loader.v0ov).2.playRequests =
        Loader.v0ov.playRequests :=
  ⟨rfl, rfl, rfl,
    (C5_error_glyph_no_retry_no_play Loader.st0 Loader.v0ov Loader.ov0 "spinner"
      rfl rfl rfl).2.2.2⟩

/-- C2: the pause/resume observer callback.  A playing video whose card
drops below the 50% visibility threshold (delivered as a
non-intersecting entry) is paused; a paused video whose card re-enters
with `readyState >= 2` gets a `play()` dispatch; if the readiness check
fails, the element is returned untouched — no play attempt, still
paused. -/
theorem C2_pause_resume_observer (v : Loader.VideoElem) :
    (v.paused = false →
      Loader.pauseResumeStep false v = { v with paused := true }) ∧
    (v.paused = true → 2 ≤ v.readyState →
      Loader.pauseResumeStep true v =
        { v with playRequests := v.playRequests + 1, paused := false }) ∧
    (v.paused = true → v.readyState < 2 →
      Loader.pauseResumeStep true v = v) := by
  refine ⟨fun h => ?_, fun h h2 => ?_, fun h h2 => ?_⟩
  · simp [Loader.pauseResumeStep, h]
  · simp [Loader.pauseResumeStep, h, h2]
  · simp [Loader.pauseResumeStep, h, Nat.not_le.mpr h2]

/-- Witness for C2: the three branches at concrete videos (a playing
one scrolled out, a ready paused one scrolled in, an unready paused
one scrolled in). -/
theorem C2_witness :
    (Loader.vPlaying.paused = false ∧
      Loader.pauseResumeStep false Loader.vPlaying =
        { Loader.vPlaying with paused := true }) ∧
    (Loader.vReady.paused = true ∧ 2 ≤ Loader.vReady.readyState ∧
      Loader.pauseResumeStep true Loader.vReady =
        { Loader.vReady with
            playRequests := Loader.vReady.playRequests + 1,
            paused := false }) ∧
    (Loader.vUnready.paused = true ∧ Loader.vUnready.readyState < 2 ∧
      Loader.pauseResumeStep true Loader.vUnready = Loader.vUnready) :=
  ⟨⟨rfl, (C2_pause_resume_observer _).1 rfl⟩,
   ⟨rfl, by decide, (C2_pause_resume_observer _).2.1 rfl (by decide)⟩,
   ⟨rfl, by decide, (C2_pause_resume_observer _).2.2 rfl (by decide)⟩⟩

/-- C4: without `IntersectionObserver` support, `init` skips the whole
lazy-loading machinery — no observer is registered, in fact the
script-global state is returned unchanged — and eagerly runs
`loadVideo` over every `.lazy-video` element (`loadAllVideos` is
exactly `videos.forEach(loadVideo)`). -/
theorem C4_no_observer_eager_load (st : Loader.LoaderState) (p : Loader.Page)
    (h : p.hasIntersectionObserver = false) :
    Loader.init st p =
      { state := st,
        lazyVideos := (Loader.loadAllVideos st p.lazyVideos).2,
        lazyObserverSetUp := false, interactionsSetUp := false,
        errorHandlingSetUp := false } := by
  unfold Loader.init
  rw [h]
  simp [Loader.loadAllVideos_state]

/-- Witness for C4 at a concrete page with one lazy video and no
`IntersectionObserver`. -/
theorem C4_witness :
    ({ hasIntersectionObserver := false, lazyVideos := [Loader.v0],
        appVideoIndices := [] } : Loader.Page).hasIntersectionObserver = false ∧
      Loader.init Loader.st0
        { hasIntersectionObserver := false, lazyVideos := [Loader.v0],
          appVideoIndices := [] } =
        { state := Loader.st0,
          lazyVideos := (Loader.loadAllVideos Loader.st0 [Loader.v0]).2,
          lazyObserverSetUp := false, interactionsSetUp := false,
          errorHandlingSetUp := false } :=
  ⟨rfl, C4_no_observer_eager_load Loader.st0 _ rfl⟩


/-- C1 counterexample: the claim attributes at-most-once loading to the
loaded-set check at the top of `loadVideo`, but that set is only
populated by `handleVideoLoaded` when `loadeddata` fires.  When the
intersection callback delivers two intersecting entries for the same
element in one batch (before any `loadeddata`), `loadVideo` runs twice,
appends the source twice and calls `video.load()` twice — not at most
once. -/
theorem C1_counterexample_double_load :
    (Loader.handleIntersection (Loader.st0, Loader.v0) [true, true]).2.loadCalls = 2 ∧
      (Loader.handleIntersection (Loader.st0, Loader.v0) [true, true]).2.sources.length = 2 := by
  constructor <;> rfl

/-- C1 (amended): the loaded-set check makes `loadVideo` idempotent only
for identifiers already recorded in the set; the identifier is recorded
by `handleVideoLoaded` (on `loadeddata`), never by `loadVideo` itself.
So once the load event has been handled, any further `loadVideo` call
for that identifier changes nothing; before that, repeated calls each
append a source and start a load. -/
theorem C1_amended_idempotent_after_record (st : Loader.LoaderState)
    (v : Loader.VideoElem) (o : Loader.PlayOutcome) :
    (Loader.videoId v ∈ st.loadedVideos → Loader.loadVideo st v = (st, v)) ∧
      Loader.videoId v ∈
        (Loader.handleVideoLoaded st v (Loader.videoId v) o).1.loadedVideos ∧
      (Loader.loadVideo st v).1 = st := by
  refine ⟨fun h => ?_, ?_, Loader.loadVideo_state st v⟩
  · unfold Loader.loadVideo
    dsimp only
    rw [if_pos (List.elem_eq_true_of_mem h)]
  · rw [Loader.handleVideoLoaded_state]
    dsimp only
    split
    · next hc => exact List.mem_of_elem_eq_true hc
    · simp

/-- Witness for the amended C1: with id `"0"` already recorded,
`loadVideo` is a no-op on `v0`. -/
theorem C1_amended_witness :
    Loader.videoId Loader.v0 ∈ Loader.stA.loadedVideos ∧
      Loader.loadVideo Loader.stA Loader.v0 = (Loader.stA, Loader.v0) :=
  ⟨by decide,
    (C1_amended_idempotent_after_record Loader.stA Loader.v0
      Loader.PlayOutcome.resolved).1 (by decide)⟩

/-- C6: over any event trace that contains no `loadeddata` delivery
(intersections and media errors only), a video element never leaves the
loading path: its class list is unchanged (never marked `loaded`), the
loaded set is unchanged (its id is never recorded), and no `play()` is
dispatched through the load path. -/
theorem C6_no_loadeddata_no_transition (st : Loader.LoaderState)
    (v : Loader.VideoElem) (tr : List Loader.VEvent)
    (h : ∀ e ∈ tr, ∀ o, e ≠ Loader.VEvent.loadeddata o) :
    (Loader.run (st, v) tr).2.classes = v.classes ∧
      (Loader.run (st, v) tr).1.loadedVideos = st.loadedVideos ∧
      (Loader.run (st, v) tr).2.playRequests = v.playRequests := by
  suffices hgen : ∀ (tr : List Loader.VEvent)
      (s : Loader.LoaderState × Loader.VideoElem),
      (∀ e ∈ tr, ∀ o, e ≠ Loader.VEvent.loadeddata o) →
      (Loader.run s tr).2.classes = s.2.classes ∧
        (Loader.run s tr).1.loadedVideos = s.1.loadedVideos ∧
        (Loader.run s tr).2.playRequests = s.2.playRequests by
    exact hgen tr (st, v) h
  intro tr
  induction tr with
  | nil => intro s _; exact ⟨rfl, rfl, rfl⟩
  | cons e t ih =>
    intro s hs
    have hstep := Loader.step_preserves_without_loadeddata s e
      (hs e (List.mem_cons_self e t))
    have ht := ih (Loader.step s e)
      (fun e' he' => hs e' (List.mem_cons_of_mem _ he'))
    have hrun : Loader.run s (e :: t) = Loader.run (Loader.step s e) t := rfl
    rw [hrun]
    exact ⟨ht.1.trans hstep.1, ht.2.1.trans hstep.2.1, ht.2.2.trans hstep.2.2⟩

/-- Witness for C6: a concrete trace of two intersections and a media
error — no `loadeddata` — leaves `v0` unloaded, unrecorded and
unplayed. -/
theorem C6_witness :
    (∀ e ∈ ([Loader.VEvent.intersect, Loader.VEvent.intersect,
        Loader.VEvent.mediaError] : List Loader.VEvent),
      ∀ o, e ≠ Loader.VEvent.loadeddata o) ∧
      ((Loader.run (Loader.st0, Loader.v0)
          [Loader.VEvent.intersect, Loader.VEvent.intersect,
            Loader.VEvent.mediaError]).2.classes = Loader.v0.classes ∧
        (Loader.run (Loader.st0, Loader.v0)
          [Loader.VEvent.intersect, Loader.VEvent.intersect,
            Loader.VEvent.mediaError]).1.loadedVideos = Loader.st0.loadedVideos ∧
        (Loader.run (Loader.st0, Loader.v0)
          [Loader.VEvent.intersect, Loader.VEvent.intersect,
            Loader.VEvent.mediaError]).2.playRequests = Loader.v0.playRequests) :=
  ⟨by simp, C6_no_loadeddata_no_transition Loader.st0 Loader.v0 _ (by simp)⟩

/-- C3 counterexample: the foreground-stars script in `night-sky.js`
(lines 6–112) registers no `beforeunload` handler at all and discards
the handle returned by `requestAnimationFrame`, so after its `animate`
has run and the page unloads, a pending animation-frame request is
still outstanding — no cancellation handle was (or could have been)
invoked for this variant. -/
theorem C3_counterexample_foreground_stars :
    (FgSky.unload FgSky.sample).raf.pending = [1] ∧
      FgSky.unloadHandlers.length = 0 :=
  ⟨rfl, rfl⟩

/-- C3 (amended): only the variants that store their animation-frame
handle cancel it on unload.  The simple starfield (`night-sky.js` lines
486–490), the photorealistic Milky Way (`part_001` lines 267–271) and
the Three.js galaxy (`part_002` lines 226–233) each run
`cancelAnimationFrame(animationId)` in their `beforeunload` handler,
leaving no pending request from their loop; the foreground-stars
overlay (`night-sky.js` lines 6–112) and the canvas fallback in
`part_000` register no unload handler, so their requests stay pending
(see the counterexample). -/
theorem C3_amended_registered_handlers_cancel :
    (∀ s : SimpleSF.State,
      s.raf.nextHandle ∉ s.raf.pending → s.raf.nextHandle ≠ 0 →
      (SimpleSF.beforeunload (SimpleSF.animate s)).raf.pending = s.raf.pending) ∧
    (∀ s : PhotoSky.State,
      s.raf.nextHandle ∉ s.raf.pending → s.raf.nextHandle ≠ 0 →
      (PhotoSky.beforeunload (PhotoSky.animate s)).raf.pending = s.raf.pending) ∧
    (∀ s : GalaxySky.State,
      s.raf.nextHandle ∉ s.raf.pending → s.raf.nextHandle ≠ 0 →
      (GalaxySky.beforeunload (GalaxySky.animate s)).raf.pending = s.raf.pending) := by
  refine ⟨fun s h1 h2 => ?_, fun s h1 h2 => ?_, fun s h1 h2 => ?_⟩
  · dsimp only [SimpleSF.animate, SimpleSF.beforeunload, Raf.request, Raf.cancel]
    rw [if_neg h2]
    exact erase_append_singleton h1
  · dsimp only [PhotoSky.animate, PhotoSky.beforeunload, Raf.request, Raf.cancel]
    rw [if_neg h2]
    exact erase_append_singleton h1
  · dsimp only [GalaxySky.animate, GalaxySky.beforeunload, Raf.request, Raf.cancel]
    rw [if_neg h2]
    split
    · exact erase_append_singleton h1
    · exact erase_append_singleton h1

/-- Witness for the amended C3: at the concrete start states, one
animation frame followed by unload leaves nothing pending in each of
the three cancelling variants. -/
theorem C3_amended_witness :
    (Raf.start.nextHandle ∉ Raf.start.pending ∧ Raf.start.nextHandle ≠ 0) ∧
      (SimpleSF.beforeunload (SimpleSF.animate SimpleSF.sample)).raf.pending =
        SimpleSF.sample.raf.pending ∧
      (PhotoSky.beforeunload (PhotoSky.animate PhotoSky.sample)).raf.pending =
        PhotoSky.sample.raf.pending ∧
      (GalaxySky.beforeunload (GalaxySky.animate GalaxySky.sample)).raf.pending =
        GalaxySky.sample.raf.pending :=
  ⟨⟨by decide, by decide⟩,
    C3_amended_registered_handlers_cancel.1 SimpleSF.sample (by decide) (by decide),
    C3_amended_registered_handlers_cancel.2.1 PhotoSky.sample (by decide) (by decide),
    C3_amended_registered_handlers_cancel.2.2 GalaxySky.sample (by decide) (by decide)⟩

/-- C7: for the simple starfield, a viewport resize performed after the
initial star creation (a nonempty star list) discards the whole set and
regenerates exactly `CONFIG.starCount = 300` stars, and after the first
redraw that follows (`animate`, whose per-star `update` only touches
opacity), every star's position lies inside the new canvas bounds:
`0 ≤ x < width` and `0 ≤ y < height`. -/
theorem C7_resize_regenerates_in_bounds (s : SimpleSF.State) (newW newH : ℚ)
    (rnd : Nat → ℚ) (hW : 0 < newW) (hH : 0 < newH)
    (hr : ∀ n, 0 ≤ rnd n ∧ rnd n < 1) (hs : 0 < s.stars.length) :
    (SimpleSF.resize newW newH rnd s).stars.length = SimpleSF.starCount ∧
      ∀ star ∈ (SimpleSF.animate (SimpleSF.resize newW newH rnd s)).stars,
        0 ≤ star.x ∧ star.x < newW ∧ 0 ≤ star.y ∧ star.y < newH := by
  have hres : (SimpleSF.resize newW newH rnd s).stars =
      SimpleSF.createStars newW newH rnd := by
    unfold SimpleSF.resize
    dsimp only
    rw [if_pos]
    exact hs
  have hanim : ∀ t : SimpleSF.State,
      (SimpleSF.animate t).stars = t.stars.map SimpleSF.Star.update :=
    fun t => rfl
  constructor
  · rw [hres]
    simp [SimpleSF.createStars]
  · intro star hstar
    rw [hanim, hres] at hstar
    obtain ⟨star', hstar', rfl⟩ := List.mem_map.mp hstar
    obtain ⟨i, _, rfl⟩ := List.mem_map.mp hstar'
    rw [(SimpleSF.update_xy _).1, (SimpleSF.update_xy _).2]
    unfold SimpleSF.mkStar
    dsimp only
    have h1 := hr (6*i)
    have h2 := hr (6*i+1)
    refine ⟨mul_nonneg h1.1 hW.le, ?_, mul_nonneg h2.1 hH.le, ?_⟩
    · calc rnd (6*i) * newW < 1 * newW := mul_lt_mul_of_pos_right h1.2 hW
        _ = newW := one_mul _
    · calc rnd (6*i+1) * newH < 1 * newH := mul_lt_mul_of_pos_right h2.2 hH
        _ = newH := one_mul _

/-- Witness for C7 at a concrete state (one existing star) and a
concrete resize to 640×480 with all random draws equal to 1/2. -/
theorem C7_witness :
    (0:ℚ) < 640 ∧ (0:ℚ) < 480 ∧ 0 < SimpleSF.sampleWithStars.stars.length ∧
      (SimpleSF.resize 640 480 (fun _ => 1/2)
        SimpleSF.sampleWithStars).stars.length = SimpleSF.starCount :=
  ⟨by norm_num, by norm_num, by decide,
    (C7_resize_regenerates_in_bounds SimpleSF.sampleWithStars 640 480
      (fun _ => 1/2) (by norm_num) (by norm_num)
      (fun n => ⟨by norm_num, by norm_num⟩) (by decide)).1⟩

/-- C8: in the D3-Celestial variant with fallback (`part_000`), when the
DOM is ready but the third-party libraries never load, the polling loop
`checkAndInit` (100 ms period) gives up once its attempt counter reaches
`maxAttempts = 50` and initialization takes the self-contained canvas
starfield path (`initCanvasFallback`), not the library path. -/
theorem C8_polling_falls_back (dom libs : Nat → Bool) (displayOk : Bool)
    (hdom : ∀ t, dom t = true) (hlibs : ∀ t, libs t = false) :
    FallbackSky.checkAndInit dom libs true displayOk 0 50 =
      some FallbackSky.Outcome.canvasFallback := by
  have h := FallbackSky.checkAndInit_reaches_fallback dom libs true displayOk
    hdom hlibs 50 0 (by omega) (by omega)
  rw [h]
  rfl

/-- Witness for C8: with the DOM ready from the start and libraries
that never appear, 50 polling checks end in the canvas fallback. -/
theorem C8_witness :
    FallbackSky.checkAndInit (fun _ => true) (fun _ => false) true true 0 50 =
      some FallbackSky.Outcome.canvasFallback :=
  C8_polling_falls_back (fun _ => true) (fun _ => false) true
    (fun _ => rfl) (fun _ => rfl)

/-- C10: in the simple starfield, stars are constructed with opacity in
`[0.5, 1)` (the draw `r4` lies in `[0, 1)`), and a single `Star.update`
unconditionally leaves the opacity in `[0.3, 1]` (the two clamp
branches pin it to a bound, the remaining branch lies strictly
between), so after every update step — arbitrarily many — the opacity
stays within the closed interval `[0.3, 1]`. -/
theorem C10_opacity_clamped (w h r1 r2 r3 r4 r5 r6 : ℚ)
    (h4a : 0 ≤ r4) (h4b : r4 < 1) :
    (1/2 ≤ (SimpleSF.mkStar w h r1 r2 r3 r4 r5 r6).opacity ∧
      (SimpleSF.mkStar w h r1 r2 r3 r4 r5 r6).opacity < 1) ∧
    ∀ (s : SimpleSF.Star) (n : Nat),
      3/10 ≤ (SimpleSF.Star.update^[n + 1] s).opacity ∧
        (SimpleSF.Star.update^[n + 1] s).opacity ≤ 1 := by
  constructor
  · unfold SimpleSF.mkStar
    dsimp only
    constructor <;> linarith
  · intro s n
    rw [Function.iterate_succ_apply']
    exact SimpleSF.update_opacity_bounds _

/-- Witness for C10 at concrete draws `r4 = 1/2`. -/
theorem C10_witness :
    (0:ℚ) ≤ 1/2 ∧ (1:ℚ)/2 < 1 ∧
      (1/2 ≤ (SimpleSF.mkStar 800 600 (1/2) (1/2) (1/2) (1/2) (1/2) (1/2)).opacity ∧
        (SimpleSF.mkStar 800 600 (1/2) (1/2) (1/2) (1/2) (1/2) (1/2)).opacity < 1) :=
  ⟨by norm_num, by norm_num,
    (C10_opacity_clamped 800 600 (1/2) (1/2) (1/2) (1/2) (1/2) (1/2)
      (by norm_num) (by norm_num)).1⟩
